import Mathlib

/-!
# UIButton validation, status sub-resource and controller registration

A shallow embedding of

* `pkg/apis/core/v1alpha1/uibutton_types.go` (`UIButton`, `Validate`,
  `GetStatus`, `CopyTo`), and
* `internal/controllers/wire.go` (`ProvideControllers`),

followed by the properties established about them.

Go strings are embedded as Lean `String`s.  The only string operations the
code performs are comparison with `""` and `strings.Contains` with the ASCII
needle `"<svg"`, so searching code points and searching UTF-8 bytes agree.
-/

set_option autoImplicit false

/-! ## `strings` -/

namespace strings

/-- Whether `sub` occurs in `s` starting at some position: the search that
`strings.Contains` performs, one candidate offset after the other. -/
def containsFrom (sub : List Char) : List Char → Bool
  | [] => sub.isEmpty
  | c :: cs => sub.isPrefixOf (c :: cs) || containsFrom sub cs

/-- Go `strings.Contains(s, substr)`: reports whether `substr` is within `s`. -/
def Contains (s substr : String) : Bool :=
  containsFrom substr.data s.data

end strings

/-! ## `k8s.io/apimachinery/pkg/util/validation/field` -/

namespace field

/-- Go `field.Path`: a path element with its parent chain (`parent == nil` is
`none`). -/
inductive Path where
  | mk (name : String) (index : String) (parent : Option Path)
  deriving Repr

/-- Go `field.NewPath(name)`. -/
def NewPath (name : String) : Path :=
  Path.mk name "" none

/-- Go `(*Path).Child(name)`: a new element whose parent is the receiver. -/
def Path.Child (p : Path) (name : String) : Path :=
  Path.mk name "" (some p)

/-- Go `(*Path).String()`: the elements from the root down, a named element
preceded by `.` unless it is the root, an unnamed one rendered as `[index]`. -/
def Path.String : Path → String
  | Path.mk name index none =>
      if name.length > 0 then name else "[" ++ index ++ "]"
  | Path.mk name index (some parent) =>
      Path.String parent
        ++ (if name.length > 0 then "." else "")
        ++ (if name.length > 0 then name else "[" ++ index ++ "]")

/-- Go `field.ErrorType`, the constants this program can produce or compare. -/
inductive ErrorType where
  | ErrorTypeNotFound
  | ErrorTypeRequired
  | ErrorTypeDuplicate
  | ErrorTypeInvalid
  | ErrorTypeNotSupported
  | ErrorTypeForbidden
  deriving DecidableEq, Repr

/-- Go `field.Error`. -/
structure Error where
  /-- Go field `Type` (a Lean keyword, hence the underscore). -/
  Type_ : ErrorType
  Field : String
  BadValue : String
  Detail : String
  deriving DecidableEq, Repr

/-- Go `field.ErrorList`. -/
abbrev ErrorList := List Error

/-- Go `field.Required(path, detail)`. -/
def Required (path : Path) (detail : String) : Error :=
  { Type_ := ErrorType.ErrorTypeRequired, Field := path.String, BadValue := "", Detail := detail }

/-- Go `field.Invalid(path, value, detail)`. -/
def Invalid (path : Path) (value : String) (detail : String) : Error :=
  { Type_ := ErrorType.ErrorTypeInvalid, Field := path.String, BadValue := value, Detail := detail }

end field

/-! ## `metav1` -/

namespace metav1

/-- Go `metav1.TypeMeta`. -/
structure TypeMeta where
  Kind : String := ""
  APIVersion : String := ""
  deriving DecidableEq, Repr

/-- Go `metav1.ObjectMeta`, with the identity and version fields. -/
structure ObjectMeta where
  Name : String := ""
  GenerateName : String := ""
  Namespace : String := ""
  UID : String := ""
  ResourceVersion : String := ""
  Generation : Int := 0
  Labels : List (String × String) := []
  deriving DecidableEq, Repr

/-- Go `metav1.MicroTime`: a wrapped `time.Time`, here its two clock words;
the zero value is the unset time. -/
structure MicroTime where
  wall : Nat := 0
  ext : Int := 0
  deriving DecidableEq, Repr

end metav1

/-! ## `v1alpha1` -/

namespace v1alpha1

/-- Go `type ComponentType string`. -/
abbrev ComponentType := String

def ComponentTypeResource : ComponentType := "Resource"
def ComponentTypeGlobal : ComponentType := "Global"

/-- Go `UIComponentLocation`. -/
structure UIComponentLocation where
  ComponentID : String := ""
  ComponentType : ComponentType := ""
  deriving DecidableEq, Repr

/-- Go `UIButtonSpec`. -/
structure UIButtonSpec where
  Location : UIComponentLocation := {}
  Text : String := ""
  IconName : String := ""
  IconSVG : String := ""
  Disabled : Bool := false
  deriving DecidableEq, Repr

/-- Go `UIButtonStatus`. -/
structure UIButtonStatus where
  LastClickedAt : metav1.MicroTime := {}
  deriving DecidableEq, Repr

/-- Go `UIButton`. -/
structure UIButton where
  TypeMeta : metav1.TypeMeta := {}
  ObjectMeta : metav1.ObjectMeta := {}
  Spec : UIButtonSpec := {}
  Status : UIButtonStatus := {}
  deriving DecidableEq, Repr

/-- Go `(*UIButton).Validate`: every rule is checked in turn and each
violation appends one error. -/
def UIButton.Validate (b : UIButton) : field.ErrorList :=
  let fieldErrors : field.ErrorList := []
  let fieldErrors :=
    if b.Spec.Text = "" then
      fieldErrors ++ [field.Required (field.NewPath "spec.text") "Button text cannot be empty"]
    else fieldErrors
  let locField := field.NewPath "spec.location"
  let fieldErrors :=
    if b.Spec.Location.ComponentID = "" then
      fieldErrors ++ [field.Required (locField.Child "componentID") "Parent component ID is required"]
    else fieldErrors
  let fieldErrors :=
    if b.Spec.Location.ComponentType = "" then
      fieldErrors ++ [field.Required (locField.Child "componentType") "Parent component type is required"]
    else fieldErrors
  let fieldErrors :=
    if b.Spec.IconSVG ≠ "" then
      if !strings.Contains b.Spec.IconSVG "<svg" then
        fieldErrors ++ [field.Invalid (field.NewPath "spec.iconSVG") b.Spec.IconSVG "Invalid <svg> element"]
      else fieldErrors
    else fieldErrors
  fieldErrors

end v1alpha1

/-! ## `resource`: the status sub-resource interfaces -/

namespace resource

/-- Go interface `resource.ObjectWithStatusSubResource` as the value it holds:
a `*UIButton`, or a pointer to an object of another kind (named by `kind`). -/
inductive ObjectWithStatusSubResource where
  | UIButton (p : v1alpha1.UIButton)
  | other (kind : String)
  deriving DecidableEq, Repr

end resource

namespace v1alpha1

/-- Go `(*UIButton).GetStatus`: the button's status value. -/
def UIButton.GetStatus (b : UIButton) : UIButtonStatus :=
  b.Status

/-- Go `UIButtonStatus.CopyTo`: `parent.(*UIButton).Status = in`.  The type
assertion panics (`none`) when `parent` does not hold a `*UIButton`; otherwise
the result is the object after the assignment. -/
def UIButtonStatus.CopyTo (s : UIButtonStatus) (parent : resource.ObjectWithStatusSubResource) :
    Option resource.ObjectWithStatusSubResource :=
  match parent with
  | resource.ObjectWithStatusSubResource.UIButton p =>
      some (resource.ObjectWithStatusSubResource.UIButton { p with Status := s })
  | resource.ObjectWithStatusSubResource.other _ => none

end v1alpha1

/-! ## `internal/controllers`: the registration list

Each reconciler is passed by pointer; a pointer is embedded as its address. -/

structure filewatch.Controller where
  ptr : Nat
  deriving DecidableEq, Repr

structure cmd.Controller where
  ptr : Nat
  deriving DecidableEq, Repr

structure podlogstream.Controller where
  ptr : Nat
  deriving DecidableEq, Repr

structure kubernetesdiscovery.Reconciler where
  ptr : Nat
  deriving DecidableEq, Repr

structure kubernetesapply.Reconciler where
  ptr : Nat
  deriving DecidableEq, Repr

structure uisession.Reconciler where
  ptr : Nat
  deriving DecidableEq, Repr

structure uiresource.Reconciler where
  ptr : Nat
  deriving DecidableEq, Repr

structure uibutton.Reconciler where
  ptr : Nat
  deriving DecidableEq, Repr

structure portforward.Reconciler where
  ptr : Nat
  deriving DecidableEq, Repr

structure tiltfile.Reconciler where
  ptr : Nat
  deriving DecidableEq, Repr

structure globalextension.Reconciler where
  ptr : Nat
  deriving DecidableEq, Repr

structure extensionrepo.Reconciler where
  ptr : Nat
  deriving DecidableEq, Repr

namespace controllers

/-- Go interface `Controller` as the value it holds: the dynamic type together
with the pointer. -/
inductive Controller where
  | filewatch (c : filewatch.Controller)
  | cmd (c : cmd.Controller)
  | podlogstream (c : podlogstream.Controller)
  | kubernetesdiscovery (c : kubernetesdiscovery.Reconciler)
  | kubernetesapply (c : kubernetesapply.Reconciler)
  | uisession (c : uisession.Reconciler)
  | uiresource (c : uiresource.Reconciler)
  | uibutton (c : uibutton.Reconciler)
  | portforward (c : portforward.Reconciler)
  | tiltfile (c : tiltfile.Reconciler)
  | globalextension (c : globalextension.Reconciler)
  | extensionrepo (c : extensionrepo.Reconciler)
  deriving DecidableEq, Repr

/-- Go `ProvideControllers`. -/
def ProvideControllers
    (fileWatch : filewatch.Controller)
    (cmds : cmd.Controller)
    (podlogstreams : podlogstream.Controller)
    (kubernetesDiscovery : kubernetesdiscovery.Reconciler)
    (kubernetesApply : kubernetesapply.Reconciler)
    (uis : uisession.Reconciler)
    (uir : uiresource.Reconciler)
    (uib : uibutton.Reconciler)
    (pfr : portforward.Reconciler)
    (tfr : tiltfile.Reconciler)
    (ger : globalextension.Reconciler)
    (er : extensionrepo.Reconciler) : List Controller :=
  [ Controller.filewatch fileWatch,
    Controller.cmd cmds,
    Controller.podlogstream podlogstreams,
    Controller.kubernetesdiscovery kubernetesDiscovery,
    Controller.kubernetesapply kubernetesApply,
    Controller.uisession uis,
    Controller.uiresource uir,
    Controller.uibutton uib,
    Controller.portforward pfr,
    Controller.tiltfile tfr,
    Controller.globalextension ger,
    Controller.extensionrepo er ]

end controllers

namespace v1alpha1

/-- The error `Validate` appends for an empty text. -/
def errText : field.Error :=
  { Type_ := field.ErrorType.ErrorTypeRequired, Field := "spec.text", BadValue := "",
    Detail := "Button text cannot be empty" }

/-- The error `Validate` appends for an empty component ID. -/
def errComponentID : field.Error :=
  { Type_ := field.ErrorType.ErrorTypeRequired, Field := "spec.location.componentID",
    BadValue := "", Detail := "Parent component ID is required" }

/-- The error `Validate` appends for an empty component type. -/
def errComponentType : field.Error :=
  { Type_ := field.ErrorType.ErrorTypeRequired, Field := "spec.location.componentType",
    BadValue := "", Detail := "Parent component type is required" }

/-- The error `Validate` appends for an icon source without `<svg`. -/
def errIconSVG (value : String) : field.Error :=
  { Type_ := field.ErrorType.ErrorTypeInvalid, Field := "spec.iconSVG", BadValue := value,
    Detail := "Invalid <svg> element" }

/-- The rule on the icon source is violated, as the code tests it. -/
def badIcon (b : UIButton) : Prop :=
  b.Spec.IconSVG ≠ "" ∧ strings.Contains b.Spec.IconSVG "<svg" = false

instance (b : UIButton) : Decidable (badIcon b) := by
  unfold badIcon; infer_instance

/-- The button of the spec's scenario: text `Deploy` on resource `frontend`. -/
def deployButton : UIButton :=
  { Spec := { Text := "Deploy",
              Location := { ComponentID := "frontend", ComponentType := ComponentTypeResource } } }

/-- A button whose icon source is a file name, not markup. -/
def notAnSvgButton : UIButton :=
  { deployButton with Spec := { deployButton.Spec with IconSVG := "not-an-svg" } }

/-- A button whose icon source is an `<svg>` element. -/
def svgButton : UIButton :=
  { deployButton with Spec := { deployButton.Spec with IconSVG := "<svg></svg>" } }

/-- A button attached to a component type outside the two named constants. -/
def sidebarButton : UIButton :=
  { deployButton with
    Spec := { deployButton.Spec with
              Location := { ComponentID := "frontend", ComponentType := "Sidebar" } } }

/-- The `Deploy` button with everything `Validate` does not read changed: an
icon name outside the icon set, the disabled flag, a click time and metadata. -/
def restyledButton : UIButton :=
  { TypeMeta := { Kind := "UIButton", APIVersion := "tilt.dev/v1alpha1" },
    ObjectMeta := { Name := "deploy", ResourceVersion := "7" },
    Spec := { deployButton.Spec with IconName := "not-a-material-icon", Disabled := true },
    Status := { LastClickedAt := { wall := 5, ext := 1700000000 } } }

/-- A button that was clicked and carries metadata. -/
def clickedButton : UIButton :=
  { deployButton with
    TypeMeta := { Kind := "UIButton", APIVersion := "tilt.dev/v1alpha1" },
    ObjectMeta := { Name := "deploy", ResourceVersion := "7" },
    Status := { LastClickedAt := { wall := 5, ext := 1700000000 } } }

end v1alpha1

/-! ## Auxiliary facts -/

namespace strings

theorem containsFrom_iff_isInfix (sub s : List Char) :
    containsFrom sub s = true ↔ sub <:+: s := by
  induction s with
  | nil => simp [containsFrom]
  | cons c cs ih =>
      simp only [containsFrom, Bool.or_eq_true, ih, List.infix_cons_iff, List.isPrefixOf_iff_prefix]

/-- `Contains` decides exactly substring containment. -/
theorem Contains_iff_isInfix (s substr : String) :
    Contains s substr = true ↔ substr.data <:+: s.data :=
  containsFrom_iff_isInfix substr.data s.data

end strings

namespace v1alpha1

theorem required_text :
    field.Required (field.NewPath "spec.text") "Button text cannot be empty" = errText := by
  decide

theorem required_componentID :
    field.Required ((field.NewPath "spec.location").Child "componentID")
      "Parent component ID is required" = errComponentID := by
  decide

theorem required_componentType :
    field.Required ((field.NewPath "spec.location").Child "componentType")
      "Parent component type is required" = errComponentType := by
  decide

theorem invalid_iconSVG (value : String) :
    field.Invalid (field.NewPath "spec.iconSVG") value "Invalid <svg> element"
      = errIconSVG value := by
  have h : (field.NewPath "spec.iconSVG").String = "spec.iconSVG" := by decide
  simp [field.Invalid, errIconSVG, h]

/-- `Validate` is the concatenation of one optional error per rule. -/
theorem Validate_eq (b : UIButton) :
    b.Validate =
      (if b.Spec.Text = "" then [errText] else [])
        ++ (if b.Spec.Location.ComponentID = "" then [errComponentID] else [])
        ++ (if b.Spec.Location.ComponentType = "" then [errComponentType] else [])
        ++ (if badIcon b then [errIconSVG b.Spec.IconSVG] else []) := by
  unfold UIButton.Validate badIcon
  simp only [required_text, required_componentID, required_componentType, invalid_iconSVG]
  by_cases h1 : b.Spec.Text = "" <;> by_cases h2 : b.Spec.Location.ComponentID = ""
    <;> by_cases h3 : b.Spec.Location.ComponentType = "" <;> by_cases h4 : b.Spec.IconSVG = ""
    <;> by_cases h5 : strings.Contains b.Spec.IconSVG "<svg" = true
    <;> simp [h1, h2, h3, h4, h5]

/-- The code's icon test in terms of substring containment. -/
theorem badIcon_iff (b : UIButton) :
    badIcon b ↔ (b.Spec.IconSVG ≠ "" ∧ ¬ "<svg".data <:+: b.Spec.IconSVG.data) := by
  unfold badIcon
  rw [← strings.Contains_iff_isInfix]
  simp

/-- Membership in the result of `Validate`. -/
theorem mem_Validate (b : UIButton) (e : field.Error) :
    e ∈ b.Validate ↔
      ((b.Spec.Text = "" ∧ e = errText)
        ∨ (b.Spec.Location.ComponentID = "" ∧ e = errComponentID)
        ∨ (b.Spec.Location.ComponentType = "" ∧ e = errComponentType)
        ∨ (badIcon b ∧ e = errIconSVG b.Spec.IconSVG)) := by
  rw [Validate_eq]
  by_cases h1 : b.Spec.Text = "" <;> by_cases h2 : b.Spec.Location.ComponentID = ""
    <;> by_cases h3 : b.Spec.Location.ComponentType = "" <;> by_cases h4 : badIcon b
    <;> simp [h1, h2, h3, h4]

end v1alpha1

/-! ## Validation -/

namespace v1alpha1

/-- C1: `Validate` returns the empty error list exactly when the text, the
component ID and the component type are non-empty and the icon source is
empty or contains `<svg`; the `Deploy` button on resource `frontend` is
accepted. -/
theorem Validate_accepts_iff :
    (∀ b : UIButton, b.Validate = [] ↔
      (b.Spec.Text ≠ "" ∧ b.Spec.Location.ComponentID ≠ ""
        ∧ b.Spec.Location.ComponentType ≠ ""
        ∧ (b.Spec.IconSVG = "" ∨ "<svg".data <:+: b.Spec.IconSVG.data)))
    ∧ deployButton.Spec.Text = "Deploy"
    ∧ deployButton.Spec.Location = { ComponentID := "frontend", ComponentType := "Resource" }
    ∧ deployButton.Spec.IconSVG = ""
    ∧ deployButton.Validate = [] := by
  refine ⟨fun b => ?_, rfl, rfl, rfl, by decide⟩
  have hicon : (b.Spec.IconSVG = "" ∨ "<svg".data <:+: b.Spec.IconSVG.data) ↔ ¬ badIcon b := by
    rw [badIcon_iff]
    tauto
  rw [Validate_eq, hicon]
  by_cases h1 : b.Spec.Text = "" <;> by_cases h2 : b.Spec.Location.ComponentID = ""
    <;> by_cases h3 : b.Spec.Location.ComponentType = "" <;> by_cases h4 : badIcon b
    <;> simp [h1, h2, h3, h4]

/-- C2: an empty text makes `Validate` non-empty with a Required error at
`spec.text`, whatever the other fields; a non-empty text leaves no error at
`spec.text`. -/
theorem Validate_text (b : UIButton) :
    (b.Spec.Text = "" →
      b.Validate ≠ [] ∧
        ∃ e ∈ b.Validate, e.Type_ = field.ErrorType.ErrorTypeRequired ∧ e.Field = "spec.text")
    ∧ (b.Spec.Text ≠ "" → ∀ e ∈ b.Validate, e.Field ≠ "spec.text") := by
  constructor
  · intro h
    have hm : errText ∈ b.Validate := (mem_Validate b errText).mpr (Or.inl ⟨h, rfl⟩)
    exact ⟨List.ne_nil_of_mem hm, errText, hm, rfl, rfl⟩
  · intro h e he
    rcases (mem_Validate b e).mp he with ⟨h1, _⟩ | ⟨_, rfl⟩ | ⟨_, rfl⟩ | ⟨_, rfl⟩
    · exact absurd h1 h
    · decide
    · decide
    · simp [errIconSVG]

/-- Instance of C2: the zero-value button gets the `spec.text` error, the
`Deploy` button has none. -/
theorem Validate_text_witness :
    ((({} : UIButton).Validate ≠ [] ∧
        ∃ e ∈ ({} : UIButton).Validate,
          e.Type_ = field.ErrorType.ErrorTypeRequired ∧ e.Field = "spec.text"))
    ∧ (∀ e ∈ deployButton.Validate, e.Field ≠ "spec.text") :=
  ⟨(Validate_text {}).1 rfl, (Validate_text deployButton).2 (by decide)⟩

/-- C3: `Validate` holds an Invalid error at `spec.iconSVG` exactly when the
icon source is non-empty and does not contain `<svg`; such an error carries
the icon source as its rejected value; `not-an-svg` is flagged, and
`<svg></svg>` on a button with valid text and location is accepted. -/
theorem Validate_iconSVG (b : UIButton) :
    ((∃ e ∈ b.Validate, e.Type_ = field.ErrorType.ErrorTypeInvalid ∧ e.Field = "spec.iconSVG")
        ↔ (b.Spec.IconSVG ≠ "" ∧ ¬ "<svg".data <:+: b.Spec.IconSVG.data))
    ∧ (∀ e ∈ b.Validate, e.Type_ = field.ErrorType.ErrorTypeInvalid → e.Field = "spec.iconSVG" →
        e.BadValue = b.Spec.IconSVG)
    ∧ (b.Spec.IconSVG = "not-an-svg" →
        ∃ e ∈ b.Validate, e.Type_ = field.ErrorType.ErrorTypeInvalid
          ∧ e.Field = "spec.iconSVG" ∧ e.BadValue = "not-an-svg")
    ∧ (b.Spec.Text ≠ "" → b.Spec.Location.ComponentID ≠ "" →
        b.Spec.Location.ComponentType ≠ "" → b.Spec.IconSVG = "<svg></svg>" →
        b.Validate = []) := by
  refine ⟨?_, ?_, ?_, ?_⟩
  · rw [← badIcon_iff]
    constructor
    · rintro ⟨e, he, ht, _⟩
      rcases (mem_Validate b e).mp he with ⟨_, rfl⟩ | ⟨_, rfl⟩ | ⟨_, rfl⟩ | ⟨h, _⟩
      · exact absurd ht (by decide)
      · exact absurd ht (by decide)
      · exact absurd ht (by decide)
      · exact h
    · intro h
      exact ⟨errIconSVG b.Spec.IconSVG, (mem_Validate b _).mpr (Or.inr (Or.inr (Or.inr ⟨h, rfl⟩))),
        rfl, rfl⟩
  · intro e he ht _
    rcases (mem_Validate b e).mp he with ⟨_, rfl⟩ | ⟨_, rfl⟩ | ⟨_, rfl⟩ | ⟨_, rfl⟩
    · exact absurd ht (by decide)
    · exact absurd ht (by decide)
    · exact absurd ht (by decide)
    · rfl
  · intro h
    have hb : badIcon b := by
      unfold badIcon
      rw [h]
      decide
    refine ⟨errIconSVG b.Spec.IconSVG, (mem_Validate b _).mpr (Or.inr (Or.inr (Or.inr ⟨hb, rfl⟩))),
      rfl, rfl, ?_⟩
    simp [errIconSVG, h]
  · intro h1 h2 h3 h4
    have hb : ¬ badIcon b := by
      unfold badIcon
      rw [h4]
      decide
    rw [Validate_eq]
    simp [h1, h2, h3, hb]

/-- Instance of C3: the `not-an-svg` button is flagged with its icon source as
the rejected value, the `<svg></svg>` button is accepted. -/
theorem Validate_iconSVG_witness :
    (∃ e ∈ notAnSvgButton.Validate, e.Type_ = field.ErrorType.ErrorTypeInvalid
        ∧ e.Field = "spec.iconSVG" ∧ e.BadValue = "not-an-svg")
    ∧ svgButton.Validate = [] :=
  ⟨(Validate_iconSVG notAnSvgButton).2.2.1 rfl,
   (Validate_iconSVG svgButton).2.2.2 (by decide) (by decide) (by decide) rfl⟩

/-- C4: `Validate` holds a Required error at `spec.location.componentID`
exactly when the component ID is empty, and one at
`spec.location.componentType` exactly when the component type is empty;
neither check looks at the other field (changing the component type does not
change whether the component ID error is present, and conversely), and a
button missing both gets both errors. -/
theorem Validate_location (b : UIButton) :
    ((∃ e ∈ b.Validate, e.Type_ = field.ErrorType.ErrorTypeRequired
          ∧ e.Field = "spec.location.componentID")
        ↔ b.Spec.Location.ComponentID = "")
    ∧ ((∃ e ∈ b.Validate, e.Type_ = field.ErrorType.ErrorTypeRequired
          ∧ e.Field = "spec.location.componentType")
        ↔ b.Spec.Location.ComponentType = "")
    ∧ (∀ t : ComponentType,
        (∃ e ∈ UIButton.Validate
            { b with Spec := { b.Spec with Location := { b.Spec.Location with ComponentType := t } } },
          e.Type_ = field.ErrorType.ErrorTypeRequired ∧ e.Field = "spec.location.componentID")
        ↔ (∃ e ∈ b.Validate, e.Type_ = field.ErrorType.ErrorTypeRequired
          ∧ e.Field = "spec.location.componentID"))
    ∧ (∀ i : String,
        (∃ e ∈ UIButton.Validate
            { b with Spec := { b.Spec with Location := { b.Spec.Location with ComponentID := i } } },
          e.Type_ = field.ErrorType.ErrorTypeRequired ∧ e.Field = "spec.location.componentType")
        ↔ (∃ e ∈ b.Validate, e.Type_ = field.ErrorType.ErrorTypeRequired
          ∧ e.Field = "spec.location.componentType"))
    ∧ (b.Spec.Location.ComponentID = "" → b.Spec.Location.ComponentType = "" →
        (∃ e ∈ b.Validate, e.Type_ = field.ErrorType.ErrorTypeRequired
          ∧ e.Field = "spec.location.componentID")
        ∧ (∃ e ∈ b.Validate, e.Type_ = field.ErrorType.ErrorTypeRequired
          ∧ e.Field = "spec.location.componentType")) := by
  have hid : ∀ c : UIButton,
      (∃ e ∈ c.Validate, e.Type_ = field.ErrorType.ErrorTypeRequired
          ∧ e.Field = "spec.location.componentID")
        ↔ c.Spec.Location.ComponentID = "" := by
    intro c
    constructor
    · rintro ⟨e, he, _, hf⟩
      rcases (mem_Validate c e).mp he with ⟨_, rfl⟩ | ⟨h, _⟩ | ⟨_, rfl⟩ | ⟨_, rfl⟩
      · exact absurd hf (by decide)
      · exact h
      · exact absurd hf (by decide)
      · exact absurd hf (by simp [errIconSVG])
    · intro h
      exact ⟨errComponentID, (mem_Validate c _).mpr (Or.inr (Or.inl ⟨h, rfl⟩)), rfl, rfl⟩
  have hty : ∀ c : UIButton,
      (∃ e ∈ c.Validate, e.Type_ = field.ErrorType.ErrorTypeRequired
          ∧ e.Field = "spec.location.componentType")
        ↔ c.Spec.Location.ComponentType = "" := by
    intro c
    constructor
    · rintro ⟨e, he, _, hf⟩
      rcases (mem_Validate c e).mp he with ⟨_, rfl⟩ | ⟨_, rfl⟩ | ⟨h, _⟩ | ⟨_, rfl⟩
      · exact absurd hf (by decide)
      · exact absurd hf (by decide)
      · exact h
      · exact absurd hf (by simp [errIconSVG])
    · intro h
      exact ⟨errComponentType, (mem_Validate c _).mpr (Or.inr (Or.inr (Or.inl ⟨h, rfl⟩))),
        rfl, rfl⟩
  exact ⟨hid b, hty b, fun _ => (hid _).trans (hid b).symm, fun _ => (hty _).trans (hty b).symm,
    fun h1 h2 => ⟨(hid b).mpr h1, (hty b).mpr h2⟩⟩

/-- Instance of C4: the zero-value button, missing both location fields, gets
both location errors. -/
theorem Validate_location_witness :
    (∃ e ∈ ({} : UIButton).Validate, e.Type_ = field.ErrorType.ErrorTypeRequired
        ∧ e.Field = "spec.location.componentID")
    ∧ (∃ e ∈ ({} : UIButton).Validate, e.Type_ = field.ErrorType.ErrorTypeRequired
        ∧ e.Field = "spec.location.componentType") :=
  (Validate_location {}).2.2.2.2 rfl rfl

end v1alpha1

/-! ## The status sub-resource -/

namespace v1alpha1

/-- C5: copying a status into a button succeeds and yields a button whose
status is the copied one while its spec (text, location, icon name, icon
source, disabled flag), object metadata (name and resource version included)
and type metadata are unchanged. -/
theorem CopyTo_frame (s : UIButtonStatus) (p : UIButton) :
    ∃ q : UIButton,
      s.CopyTo (resource.ObjectWithStatusSubResource.UIButton p)
          = some (resource.ObjectWithStatusSubResource.UIButton q)
      ∧ q.Status = s
      ∧ q.Spec = p.Spec
      ∧ q.Spec.Text = p.Spec.Text
      ∧ q.Spec.Location = p.Spec.Location
      ∧ q.Spec.IconName = p.Spec.IconName
      ∧ q.Spec.IconSVG = p.Spec.IconSVG
      ∧ q.Spec.Disabled = p.Spec.Disabled
      ∧ q.ObjectMeta = p.ObjectMeta
      ∧ q.ObjectMeta.Name = p.ObjectMeta.Name
      ∧ q.ObjectMeta.ResourceVersion = p.ObjectMeta.ResourceVersion
      ∧ q.TypeMeta = p.TypeMeta :=
  ⟨{ p with Status := s }, rfl, rfl, rfl, rfl, rfl, rfl, rfl, rfl, rfl, rfl, rfl, rfl⟩

/-- C6 as stated fails: a button whose component type is `Sidebar`, neither
`Resource` nor `Global`, is accepted by `Validate`. -/
theorem Validate_componentType_counterexample :
    ¬ (∀ b : UIButton, b.Validate = [] →
        (b.Spec.Location.ComponentType = ComponentTypeResource
          ∨ b.Spec.Location.ComponentType = ComponentTypeGlobal)) := by
  intro h
  have h1 := h sidebarButton (by decide)
  revert h1
  decide

/-- C6, amended: a button that `Validate` accepts has a non-empty component
type, and `Validate` goes on accepting it with any other non-empty component
type; `Resource` and `Global` are two such values. -/
theorem Validate_componentType_nonempty (b : UIButton) (h : b.Validate = []) :
    b.Spec.Location.ComponentType ≠ ""
    ∧ (∀ t : ComponentType, t ≠ "" →
        UIButton.Validate
          { b with Spec := { b.Spec with Location := { b.Spec.Location with ComponentType := t } } }
          = [])
    ∧ ComponentTypeResource ≠ "" ∧ ComponentTypeGlobal ≠ "" := by
  rw [Validate_eq] at h
  by_cases h1 : b.Spec.Text = "" <;> by_cases h2 : b.Spec.Location.ComponentID = ""
    <;> by_cases h3 : b.Spec.Location.ComponentType = "" <;> by_cases h4 : badIcon b
    <;> simp [h1, h2, h3, h4] at h
  refine ⟨h3, fun t ht => ?_, by decide, by decide⟩
  rw [Validate_eq]
  have h4' : ¬ badIcon
      { b with Spec := { b.Spec with Location := { b.Spec.Location with ComponentType := t } } } :=
    h4
  simp [h1, h2, ht, h4']

/-- Instance of the amended C6 at the `Deploy` button, whose component type
may be replaced by `Sidebar`. -/
theorem Validate_componentType_nonempty_witness :
    deployButton.Spec.Location.ComponentType ≠ "" ∧ sidebarButton.Validate = [] :=
  ⟨(Validate_componentType_nonempty deployButton (by decide)).1,
   (Validate_componentType_nonempty deployButton (by decide)).2.1 "Sidebar" (by decide)⟩

/-- C9: `Validate` reports every violation: its length is the number of
violated rules (at most four), the error paths follow the fixed order
`spec.text`, `spec.location.componentID`, `spec.location.componentType`,
`spec.iconSVG` without repetition, and the zero-value button yields exactly
the three Required errors. -/
theorem Validate_reports_all (b : UIButton) :
    b.Validate.length =
        (if b.Spec.Text = "" then 1 else 0)
          + (if b.Spec.Location.ComponentID = "" then 1 else 0)
          + (if b.Spec.Location.ComponentType = "" then 1 else 0)
          + (if b.Spec.IconSVG ≠ "" ∧ ¬ "<svg".data <:+: b.Spec.IconSVG.data then 1 else 0)
    ∧ b.Validate.length ≤ 4
    ∧ List.Sublist (b.Validate.map fun e => e.Field)
        ["spec.text", "spec.location.componentID", "spec.location.componentType", "spec.iconSVG"]
    ∧ (b.Validate.map fun e => e.Field).Nodup
    ∧ ({} : UIButton).Validate =
        [ { Type_ := field.ErrorType.ErrorTypeRequired, Field := "spec.text", BadValue := "",
            Detail := "Button text cannot be empty" },
          { Type_ := field.ErrorType.ErrorTypeRequired, Field := "spec.location.componentID",
            BadValue := "", Detail := "Parent component ID is required" },
          { Type_ := field.ErrorType.ErrorTypeRequired, Field := "spec.location.componentType",
            BadValue := "", Detail := "Parent component type is required" } ] := by
  have hsub : List.Sublist (b.Validate.map fun e => e.Field)
      ["spec.text", "spec.location.componentID", "spec.location.componentType",
        "spec.iconSVG"] := by
    rw [Validate_eq]
    by_cases h1 : b.Spec.Text = "" <;> by_cases h2 : b.Spec.Location.ComponentID = ""
      <;> by_cases h3 : b.Spec.Location.ComponentType = "" <;> by_cases h4 : badIcon b
      <;> simp [h1, h2, h3, h4, errText, errComponentID, errComponentType, errIconSVG]
  have hlen : b.Validate.length =
        (if b.Spec.Text = "" then 1 else 0)
          + (if b.Spec.Location.ComponentID = "" then 1 else 0)
          + (if b.Spec.Location.ComponentType = "" then 1 else 0)
          + (if b.Spec.IconSVG ≠ "" ∧ ¬ "<svg".data <:+: b.Spec.IconSVG.data then 1 else 0) := by
    have hic : (if b.Spec.IconSVG ≠ "" ∧ ¬ "<svg".data <:+: b.Spec.IconSVG.data then 1 else 0)
        = (if badIcon b then 1 else 0) := by
      by_cases h4 : badIcon b
      · rw [if_pos h4, if_pos ((badIcon_iff b).mp h4)]
      · rw [if_neg h4, if_neg (fun h => h4 ((badIcon_iff b).mpr h))]
    rw [hic, Validate_eq]
    by_cases h1 : b.Spec.Text = "" <;> by_cases h2 : b.Spec.Location.ComponentID = ""
      <;> by_cases h3 : b.Spec.Location.ComponentType = "" <;> by_cases h4 : badIcon b
      <;> simp [h1, h2, h3, h4]
  refine ⟨hlen, ?_, hsub, ?_, by decide⟩
  · have := hsub.length_le
    simpa using this
  · exact hsub.nodup (by decide)

/-- C10: `GetStatus` and `CopyTo` form a round trip: reading the status after
a copy gives the copied status, copying a button's own status into it leaves
it unchanged, and of two successive copies only the second one remains. -/
theorem GetStatus_CopyTo_roundtrip :
    (∀ (s : UIButtonStatus) (p : UIButton),
      ∃ q : UIButton,
        s.CopyTo (resource.ObjectWithStatusSubResource.UIButton p)
            = some (resource.ObjectWithStatusSubResource.UIButton q)
        ∧ q.GetStatus = s)
    ∧ (∀ b : UIButton,
        b.GetStatus.CopyTo (resource.ObjectWithStatusSubResource.UIButton b)
          = some (resource.ObjectWithStatusSubResource.UIButton b))
    ∧ (∀ (s1 s2 : UIButtonStatus) (p : UIButton),
        (s1.CopyTo (resource.ObjectWithStatusSubResource.UIButton p)).bind s2.CopyTo
          = s2.CopyTo (resource.ObjectWithStatusSubResource.UIButton p)) :=
  ⟨fun s p => ⟨{ p with Status := s }, rfl, rfl⟩, fun _ => rfl, fun _ _ _ => rfl⟩

end v1alpha1

/-! ## The registration list -/

namespace controllers

/-- C7: `ProvideControllers` returns a list of exactly twelve entries whose
i-th entry is its i-th argument, in the order of the parameter list, with no
entry repeated. -/
theorem ProvideControllers_registers_each_once
    (fileWatch : filewatch.Controller)
    (cmds : cmd.Controller)
    (podlogstreams : podlogstream.Controller)
    (kubernetesDiscovery : kubernetesdiscovery.Reconciler)
    (kubernetesApply : kubernetesapply.Reconciler)
    (uis : uisession.Reconciler)
    (uir : uiresource.Reconciler)
    (uib : uibutton.Reconciler)
    (pfr : portforward.Reconciler)
    (tfr : tiltfile.Reconciler)
    (ger : globalextension.Reconciler)
    (er : extensionrepo.Reconciler) :
    ∃ l : List Controller,
      l = ProvideControllers fileWatch cmds podlogstreams kubernetesDiscovery kubernetesApply
            uis uir uib pfr tfr ger er
      ∧ l.length = 12
      ∧ l[0]? = some (Controller.filewatch fileWatch)
      ∧ l[1]? = some (Controller.cmd cmds)
      ∧ l[2]? = some (Controller.podlogstream podlogstreams)
      ∧ l[3]? = some (Controller.kubernetesdiscovery kubernetesDiscovery)
      ∧ l[4]? = some (Controller.kubernetesapply kubernetesApply)
      ∧ l[5]? = some (Controller.uisession uis)
      ∧ l[6]? = some (Controller.uiresource uir)
      ∧ l[7]? = some (Controller.uibutton uib)
      ∧ l[8]? = some (Controller.portforward pfr)
      ∧ l[9]? = some (Controller.tiltfile tfr)
      ∧ l[10]? = some (Controller.globalextension ger)
      ∧ l[11]? = some (Controller.extensionrepo er)
      ∧ l.Nodup := by
  refine ⟨_, rfl, rfl, rfl, rfl, rfl, rfl, rfl, rfl, rfl, rfl, rfl, rfl, rfl, rfl, ?_⟩
  simp [ProvideControllers]

end controllers

/-! ## What `Validate` reads -/

namespace v1alpha1

/-- C11: `Validate` depends only on the text, the location and the icon
source: two buttons that agree on these three get the same error list,
whatever their icon name, disabled flag, status, object metadata and type
metadata.  Hence a status copy leaves the error list (and so validity) as it
was, and replacing the icon name by any string does too. -/
theorem Validate_depends_only_on_text_location_iconSVG (b1 b2 : UIButton)
    (hText : b1.Spec.Text = b2.Spec.Text)
    (hLocation : b1.Spec.Location = b2.Spec.Location)
    (hIconSVG : b1.Spec.IconSVG = b2.Spec.IconSVG) :
    b1.Validate = b2.Validate
    ∧ (∀ s : UIButtonStatus, ∃ q : UIButton,
        s.CopyTo (resource.ObjectWithStatusSubResource.UIButton b1)
            = some (resource.ObjectWithStatusSubResource.UIButton q)
        ∧ q.Validate = b1.Validate
        ∧ (q.Validate = [] ↔ b1.Validate = []))
    ∧ (∀ iconName : String,
        UIButton.Validate { b1 with Spec := { b1.Spec with IconName := iconName } }
          = b1.Validate) := by
  refine ⟨?_, fun s => ⟨{ b1 with Status := s }, rfl, rfl, Iff.rfl⟩, fun _ => rfl⟩
  simp only [UIButton.Validate, hText, hLocation, hIconSVG]

/-- Instance of C11: the restyled button, which differs from the `Deploy`
button in icon name, disabled flag, status and metadata, gets the same (empty)
error list, and an icon name outside the icon set is accepted. -/
theorem Validate_depends_only_on_text_location_iconSVG_witness :
    restyledButton.Spec.IconName ≠ deployButton.Spec.IconName
    ∧ restyledButton.Spec.Disabled ≠ deployButton.Spec.Disabled
    ∧ restyledButton.Status ≠ deployButton.Status
    ∧ restyledButton.ObjectMeta ≠ deployButton.ObjectMeta
    ∧ restyledButton.TypeMeta ≠ deployButton.TypeMeta
    ∧ restyledButton.Validate = deployButton.Validate
    ∧ UIButton.Validate
        { restyledButton with
          Spec := { restyledButton.Spec with IconName := "no such icon" } } = [] :=
  ⟨by decide, by decide, by decide, by decide, by decide,
   (Validate_depends_only_on_text_location_iconSVG restyledButton deployButton rfl rfl rfl).1,
   ((Validate_depends_only_on_text_location_iconSVG restyledButton deployButton
      rfl rfl rfl).2.2 "no such icon").trans (by decide)⟩

end v1alpha1
